import Mathlib

/-!
Verification of the keyword-based retrieval store ("simple RAG") of the
mds-chatbot repository.

The embedding follows the TypeScript source:

* `src/lib/services/simple-rag-store.ts` — `SimpleRAGStore` with
  `initialize`, `searchSimilar`, `getRetrievalContext`, `isReady`;
* `document-processing-service.ts` — `DocumentProcessingService` with
  `processDocxFile` and `splitTextIntoChunks`.

Modelling conventions:

* JavaScript scores are sums of the non-negative contributions 10 (phrase
  bonus), 2 per whole-word match and 1 per domain term present, so they are
  modelled as `Nat`.
* `String.prototype.toLowerCase`, `trim`, `includes` and split on `/\s+/`
  are modelled for the ASCII fragment the document and queries use
  (`String.toLower`, `String.trim`, `hasInfix`, `jsSplitWs`).
* `searchSimilar` builds `new RegExp("\\b" + word + "\\b", "gi")` from each
  query token without escaping.  For tokens made of word characters
  `[A-Za-z0-9_]` the regex counts whole-word occurrences, modelled by
  `countWordMatches`.  A token containing any other character changes the
  pattern's meaning or makes compilation throw a `SyntaxError` which the
  `catch` block rethrows wrapped (for example the token `(((` yields the
  invalid pattern `\b(((\b`); the model conservatively reports this whole
  region as the thrown error.  The error surfaces only when at least one
  chunk exists, because the regex is built inside `documents.map`.
* `Array.prototype.sort` with comparator `(a, b) => b.score - a.score` is a
  stable descending sort (ECMAScript 2019+); any stable sort produces the
  same list, so it is modelled by insertion sort with the relation
  `scoreGE a b := b.score ≤ a.score`.
* Effects (file system, `mammoth` extraction, `uuid`, the langchain
  splitter) are passed as explicit parameters; thrown exceptions are
  `Except.error` values carrying the thrown message.
-/

/-- Metadata attached to a chunk (`DocumentChunk.metadata` in
`document-processing-service.ts`). -/
structure ChunkMetadata where
  source : String
  chunkIndex : Nat
  totalChunks : Nat
  wordCount : Nat
deriving DecidableEq, Repr

/-- A document chunk (`DocumentChunk` in `document-processing-service.ts`). -/
structure DocumentChunk where
  id : String
  content : String
  metadata : ChunkMetadata
deriving DecidableEq, Repr

/-- Result of `searchSimilar` (`SimpleRetrievalResult` in
`simple-rag-store.ts`). -/
structure SimpleRetrievalResult where
  chunks : List DocumentChunk
  scores : List Nat
  query : String
deriving DecidableEq, Repr

/-- Scanner for `String.prototype.split(/\s+/)`.  `inGap` records whether
the scanner stands inside a maximal whitespace run whose separator has
already been emitted; `acc` holds the characters of the token being read,
reversed (empty while in a gap). -/
def jsSplitWsAux : Bool → List Char → List Char → List String
  | _, [], acc => [String.mk acc.reverse]
  | inGap, c :: cs, acc =>
    if c.isWhitespace then
      if inGap then jsSplitWsAux true cs acc
      else String.mk acc.reverse :: jsSplitWsAux true cs []
    else jsSplitWsAux false cs (c :: acc)

/-- Model of JavaScript `s.split(/\s+/)`: splits at maximal whitespace runs,
keeping an empty leading (resp. trailing) piece when the string starts
(resp. ends) with whitespace; `"".split(/\s+/)` is `[""]`. -/
def jsSplitWs (s : String) : List String := jsSplitWsAux false s.data []

/-- Model of JavaScript `s.toLowerCase()` for the ASCII fragment used here:
per-character lowercasing. -/
def jsToLower (s : String) : String := String.mk (s.data.map Char.toLower)

/-- Containment of `pat` as a contiguous sublist of `s`; true for the empty
pattern, exactly like JavaScript `s.includes(pat)`. -/
def hasInfix : List Char → List Char → Bool
  | [], pat => pat.isEmpty
  | s@(_ :: rest), pat => pat.isPrefixOf s || hasInfix rest pat

/-- Model of JavaScript `s.includes(pat)`. -/
def jsIncludes (s pat : String) : Bool := hasInfix s.data pat.data

/-- Modelled from the spec: the number of occurrences of `pat` in a string,
counting every starting position at which `pat` appears, as used by the
spec's "flat bonus per occurrence" wording for the domain vocabulary. -/
def countOccurrences (pat : List Char) : List Char → Nat
  | [] => 0
  | s@(_ :: rest) => (if pat.isPrefixOf s then 1 else 0) + countOccurrences pat rest

/-- An ECMAScript word character `[A-Za-z0-9_]`, the class `\w` used by the
`\b` boundaries of the per-token regex. -/
def isWordChar (c : Char) : Bool := c.isAlphanum || c == '_'

/-- Whether `word` occurs at the head of `s` as a whole word: it is a prefix
of `s`, the preceding character `prev` (if any) is not a word character, and
the character following the occurrence (if any) is not a word character. -/
def wholeWordAt (word : List Char) (prev : Option Char) (s : List Char) : Bool :=
  word.isPrefixOf s
    && (match prev with
        | none => true
        | some p => !isWordChar p)
    && (match s.drop word.length with
        | [] => true
        | d :: _ => !isWordChar d)

/-- Scan `s` counting whole-word occurrences of `word`; `prev` is the
character just before `s` in the full content, if any. -/
def countWordMatchesAux (word : List Char) : Option Char → List Char → Nat
  | _, [] => 0
  | prev, s@(c :: rest) =>
    (if wholeWordAt word prev s then 1 else 0) + countWordMatchesAux word (some c) rest

/-- Model of `contentLower.match(new RegExp("\\b" + word + "\\b", "gi"))`'s
match count for a token made of word characters: whole-word matches cannot
overlap, so the global match count is the number of starting positions with
both boundaries satisfied. -/
def countWordMatches (word content : String) : Nat :=
  countWordMatchesAux word.data none content.data

/-- The fixed domain-vocabulary list `academyTerms` of `searchSimilar`. -/
def academyTerms : List String :=
  ["academy", "school", "education", "student", "course", "program", "admission"]

/-- The domain-vocabulary contribution of `searchSimilar`: 1 point per term
of `academyTerms` contained in the lowercased content (`includes`, a
presence test). -/
def academyScore (contentLower : String) : Nat :=
  (academyTerms.filter (fun t => jsIncludes contentLower t)).length

/-- A query token for which the interpolated pattern
`"\\b" + word + "\\b"` is the literal whole-word regex: all characters are
word characters, so no regex metacharacter is injected. -/
def wordRegexSafe (word : String) : Bool := word.data.all isWordChar

/-- Query tokenization of `searchSimilar`:
`queryLower.split(/\s+/).filter(word => word.length > 2)`. -/
def queryWordsOf (queryLower : String) : List String :=
  (jsSplitWs queryLower).filter (fun w => decide (2 < w.length))

/-- Per-chunk score of `searchSimilar` (the loop body of
`this.documents.map`): phrase bonus 10 when the lowercased content contains
the lowercased query, plus 2 per whole-word match of each query token, plus
the domain-vocabulary contribution. -/
def scoreChunkPure (queryLower : String) (queryWords : List String) (content : String) : Nat :=
  (if jsIncludes (jsToLower content) queryLower then 10 else 0)
    + (queryWords.map (fun w => 2 * countWordMatches w (jsToLower content))).sum
    + academyScore (jsToLower content)

/-- Per-chunk scoring including the regex-construction failure: an unsafe
token makes `new RegExp` throw (or match non-literally), surfaced as an
error; otherwise the pure score. -/
def chunkScore (query content : String) : Except String Nat :=
  if (queryWordsOf (jsToLower query)).all wordRegexSafe then
    Except.ok (scoreChunkPure (jsToLower query) (queryWordsOf (jsToLower query)) content)
  else
    Except.error "SyntaxError: Invalid regular expression"

/-- Comparison relation of the sort in `searchSimilar`
(`(a, b) => b.score - a.score`, i.e. descending score). -/
def scoreGE (a b : DocumentChunk × Nat) : Prop := b.2 ≤ a.2

instance : DecidableRel scoreGE := fun a b => Nat.decLe b.2 a.2

instance : IsTotal (DocumentChunk × Nat) scoreGE :=
  ⟨fun a b => Nat.le_total b.2 a.2⟩

instance : IsTrans (DocumentChunk × Nat) scoreGE :=
  ⟨fun _ _ _ hab hbc => Nat.le_trans hbc hab⟩

/-- Stable descending sort of scored chunks, the model of
`scoredChunks.sort((a, b) => b.score - a.score)`. -/
def sortByScoreDesc (l : List (DocumentChunk × Nat)) : List (DocumentChunk × Nat) :=
  List.insertionSort scoreGE l

/-- The `scoredChunks` intermediate of `searchSimilar`: every cached chunk
paired with its score. -/
def scoredChunksOf (documents : List DocumentChunk) (queryLower : String)
    (queryWords : List String) : List (DocumentChunk × Nat) :=
  documents.map (fun chunk => (chunk, scoreChunkPure queryLower queryWords chunk.content))

/-- The `topChunks` intermediate of `searchSimilar`: keep the strictly
positive scores, sort descending (stable) and truncate to `topK`. -/
def topChunksOf (documents : List DocumentChunk) (queryLower : String)
    (queryWords : List String) (topK : Nat) : List (DocumentChunk × Nat) :=
  (sortByScoreDesc
      ((scoredChunksOf documents queryLower queryWords).filter (fun it => decide (0 < it.2)))).take
    topK

/-- The ranking pipeline of `searchSimilar` over a given chunk list:
tokenize the query, score every chunk, keep the strictly positive scores,
sort descending and truncate to `topK`.  The regex failure surfaces only
when at least one chunk exists, because the regex is constructed inside
`this.documents.map`; the `catch` block rethrows it wrapped. -/
def searchChunks (documents : List DocumentChunk) (query : String) (topK : Nat) :
    Except String SimpleRetrievalResult :=
  if documents.isEmpty || (queryWordsOf (jsToLower query)).all wordRegexSafe then
    Except.ok
      { chunks := (topChunksOf documents (jsToLower query) (queryWordsOf (jsToLower query))
          topK).map (fun it => it.1)
        scores := (topChunksOf documents (jsToLower query) (queryWordsOf (jsToLower query))
          topK).map (fun it => it.2)
        query := query }
  else
    Except.error "Failed to search for similar chunks: SyntaxError: Invalid regular expression"

/-- Mutable state of the `SimpleRAGStore` singleton: the cached chunk list
`documents` and the readiness flag `isInitialized`. -/
structure RAGStoreState where
  documents : List DocumentChunk
  isInitialized : Bool
deriving DecidableEq, Repr

/-- The freshly constructed store: no documents, not initialized. -/
def RAGStoreState.initial : RAGStoreState := { documents := [], isInitialized := false }

/-- Model of `SimpleRAGStore.initialize`.  `processResult` is the outcome of
`documentProcessor.processAbuRayyanDocument()`; it is consulted only when
the store is not yet initialized, and a failure is rethrown wrapped. -/
def initStore (processResult : Except String (List DocumentChunk)) (st : RAGStoreState) :
    Except String RAGStoreState :=
  if st.isInitialized then
    Except.ok st
  else
    match processResult with
    | Except.ok chunks => Except.ok { documents := chunks, isInitialized := true }
    | Except.error e => Except.error ("Failed to initialize simple RAG store: " ++ e)

/-- Model of `SimpleRAGStore.searchSimilar`: lazily initialize when the
readiness flag is down, then run the ranking pipeline over the cached
chunks; returns the state after the call together with the result. -/
def searchSimilar (processResult : Except String (List DocumentChunk)) (st : RAGStoreState)
    (query : String) (topK : Nat) :
    Except String (RAGStoreState × SimpleRetrievalResult) :=
  match (if st.isInitialized then Except.ok st else initStore processResult st) with
  | Except.error e => Except.error e
  | Except.ok st1 =>
    match searchChunks st1.documents query topK with
    | Except.error e => Except.error e
    | Except.ok r => Except.ok (st1, r)

/-- The fixed fallback message of `getRetrievalContext` for an empty
retrieval result. -/
def noInfoFallback : String :=
  "No relevant information found in the Abu Rayyan Academy documents."

/-- Model of `SimpleRAGStore.getRetrievalContext` over a given chunk list:
run the ranking pipeline; an empty chunk list yields the fixed fallback
message, otherwise the chunks are concatenated under a header with
1-based `[Document i]:` labels. -/
def getRetrievalContext (documents : List DocumentChunk) (query : String) (topK : Nat) :
    Except String String :=
  match searchChunks documents query topK with
  | Except.error e => Except.error ("Failed to get retrieval context: " ++ e)
  | Except.ok results =>
    if results.chunks.length = 0 then
      Except.ok noInfoFallback
    else
      Except.ok (results.chunks.enum.foldl
        (fun ctx p =>
          ctx ++ "[Document " ++ toString (p.1 + 1) ++ "]:\n" ++ p.2.content ++ "\n\n")
        "Based on the Abu Rayyan Academy documents:\n\n")

/-- Model of `DocumentProcessingService.splitTextIntoChunks` after the
langchain splitter: `splitPieces` is the list returned by
`this.textSplitter.splitText(text)` and `ids` supplies the `uuidv4()`
values; each piece becomes a chunk annotated with its index, the total
count, and the `split(/\s+/)` token count of the untrimmed piece. -/
def splitTextIntoChunks (splitPieces : List String) (src : String) (ids : Nat → String) :
    List DocumentChunk :=
  splitPieces.enum.map (fun p =>
    { id := ids p.1
      content := p.2.trim
      metadata :=
        { source := src
          chunkIndex := p.1
          totalChunks := splitPieces.length
          wordCount := (jsSplitWs p.2).length } })

/-- Model of `DocumentProcessingService.processDocxFile`.  `fileExists`
models `fs.existsSync(filePath)`, `extractResult` the outcome of the
`mammoth` extraction (a thrown extraction error is already wrapped by
`extractTextFromDocx`), and `splitText` the langchain splitter.  The file
is rejected when missing, when extraction fails, or when the extracted
text is empty or whitespace-only. -/
def processDocxFile (fileExists : Bool) (extractResult : Except String String)
    (splitText : String → List String) (ids : Nat → String) (filePath : String) :
    Except String (List DocumentChunk) :=
  if !fileExists then
    Except.error ("File not found: " ++ filePath)
  else
    match extractResult with
    | Except.error e => Except.error ("Failed to extract text from " ++ filePath ++ ": " ++ e)
    | Except.ok text =>
      if text.trim.length = 0 then
        Except.error "No text content found in the document"
      else
        Except.ok (splitTextIntoChunks (splitText text) filePath ids)

/-- Whether the extraction succeeded but produced no usable text (empty or
whitespace-only), the condition `!text || text.trim().length === 0` of
`processDocxFile` restricted to the success case. -/
def extractedEmpty : Except String String → Bool
  | Except.ok t => t.trim.length == 0
  | Except.error _ => false

/-- Boolean form of "the score list is non-increasing". -/
def nonIncreasingScores : List Nat → Bool
  | [] => true
  | [_] => true
  | a :: b :: rest => decide (b ≤ a) && nonIncreasingScores (b :: rest)

/-- A single-chunk constructor used by concrete test inputs. -/
def mkChunk (content : String) : DocumentChunk :=
  { id := "chunk-0"
    content := content
    metadata := { source := "doc.docx", chunkIndex := 0, totalChunks := 1, wordCount := 1 } }

/-- Shared concrete store state: the one-chunk document already cached. -/
def demoState : RAGStoreState :=
  { documents := [mkChunk "academy"], isInitialized := true }

/-- Shared concrete retrieval result for the query `"school"` against the
one-chunk store `demoState`. -/
def demoResult : SimpleRetrievalResult :=
  { chunks := [mkChunk "academy"], scores := [1], query := "school" }

/-- Concrete retrieval result for the empty query against the one-chunk
store holding `"abc"`. -/
def emptyQueryResult : SimpleRetrievalResult :=
  { chunks := [mkChunk "abc"], scores := [10], query := "" }

/-- Pairwise descending scores give a non-increasing mapped score list. -/
theorem nonIncreasing_of_pairwise {l : List (DocumentChunk × Nat)}
    (h : l.Pairwise scoreGE) : nonIncreasingScores (l.map (fun it => it.2)) = true := by
  induction l with
  | nil => rfl
  | cons x xs ih =>
    cases xs with
    | nil => rfl
    | cons y ys =>
      rw [List.pairwise_cons] at h
      obtain ⟨hx, hrest⟩ := h
      have hy : y.2 ≤ x.2 := hx y (by simp)
      have htail := ih hrest
      show (decide (y.2 ≤ x.2) && nonIncreasingScores (y.2 :: ys.map (fun it => it.2))) = true
      rw [Bool.and_eq_true, decide_eq_true_eq]
      exact ⟨hy, htail⟩

/-- The truncated sorted list is pairwise descending. -/
theorem topChunksOf_pairwise (documents : List DocumentChunk) (queryLower : String)
    (queryWords : List String) (topK : Nat) :
    (topChunksOf documents queryLower queryWords topK).Pairwise scoreGE := by
  have hs : List.Sorted scoreGE
      (sortByScoreDesc
        ((scoredChunksOf documents queryLower queryWords).filter (fun it => decide (0 < it.2)))) :=
    List.sorted_insertionSort scoreGE _
  exact List.Pairwise.sublist (List.take_sublist _ _) hs

/-- Every entry surviving the pipeline has a strictly positive score. -/
theorem topChunksOf_pos {documents : List DocumentChunk} {queryLower : String}
    {queryWords : List String} {topK : Nat} {x : DocumentChunk × Nat}
    (hx : x ∈ topChunksOf documents queryLower queryWords topK) : 0 < x.2 := by
  have h1 : x ∈ sortByScoreDesc
      ((scoredChunksOf documents queryLower queryWords).filter (fun it => decide (0 < it.2))) :=
    List.take_subset _ _ hx
  have h2 : x ∈ (scoredChunksOf documents queryLower queryWords).filter
      (fun it => decide (0 < it.2)) :=
    ((List.perm_insertionSort scoreGE _).mem_iff).mp h1
  simpa using List.of_mem_filter h2

/-- Every entry surviving the pipeline comes from the scored chunk list. -/
theorem topChunksOf_mem_scored {documents : List DocumentChunk} {queryLower : String}
    {queryWords : List String} {topK : Nat} {x : DocumentChunk × Nat}
    (hx : x ∈ topChunksOf documents queryLower queryWords topK) :
    x ∈ scoredChunksOf documents queryLower queryWords := by
  have h1 : x ∈ sortByScoreDesc
      ((scoredChunksOf documents queryLower queryWords).filter (fun it => decide (0 < it.2))) :=
    List.take_subset _ _ hx
  have h2 : x ∈ (scoredChunksOf documents queryLower queryWords).filter
      (fun it => decide (0 < it.2)) :=
    ((List.perm_insertionSort scoreGE _).mem_iff).mp h1
  exact List.mem_of_mem_filter h2

/-- A successful stateful search ran the ranking pipeline on the chunk set
of the state it returns. -/
theorem searchSimilar_ok_searchChunks {proc : Except String (List DocumentChunk)}
    {st st2 : RAGStoreState} {query : String} {topK : Nat} {r : SimpleRetrievalResult}
    (h : searchSimilar proc st query topK = Except.ok (st2, r)) :
    searchChunks st2.documents query topK = Except.ok r := by
  unfold searchSimilar at h
  split at h
  · exact absurd h (by simp)
  · rename_i st1 heq
    split at h
    · exact absurd h (by simp)
    · rename_i r1 heq2
      have hpair : st1 = st2 ∧ r1 = r := by simpa using h
      obtain ⟨h1, h2⟩ := hpair
      rw [← h1, ← h2]
      exact heq2

/-- Containment of the empty pattern always holds, like JavaScript
`s.includes("")`. -/
theorem hasInfix_empty (s : List Char) : hasInfix s [] = true := by
  cases s <;> simp [hasInfix, List.isPrefixOf, List.isEmpty]

/-- For a non-empty pattern, containment coincides with a positive
occurrence count. -/
theorem hasInfix_eq_pos_count (pat : List Char) (hne : pat ≠ []) (s : List Char) :
    hasInfix s pat = decide (0 < countOccurrences pat s) := by
  induction s with
  | nil =>
    cases pat with
    | nil => exact absurd rfl hne
    | cons a l => simp [hasInfix, countOccurrences, List.isEmpty]
  | cons c rest ih =>
    by_cases hp : pat.isPrefixOf (c :: rest) = true
    · simp [hasInfix, countOccurrences, hp]
    · rw [Bool.not_eq_true] at hp
      simp [hasInfix, countOccurrences, hp, ih]

/-- C1: whenever `searchSimilar` returns a result, its `chunks` and `scores`
sequences have equal length, at most `topK` chunks are returned, the score
sequence is non-increasing, and every returned score is strictly positive. -/
theorem searchSimilar_ranking_invariant (proc : Except String (List DocumentChunk))
    (st st2 : RAGStoreState) (query : String) (topK : Nat) (r : SimpleRetrievalResult)
    (h : searchSimilar proc st query topK = Except.ok (st2, r)) :
    r.chunks.length = r.scores.length
    ∧ r.chunks.length ≤ topK
    ∧ nonIncreasingScores r.scores = true
    ∧ r.scores.all (fun s => decide (0 < s)) = true := by
  have hsc := searchSimilar_ok_searchChunks h
  unfold searchChunks at hsc
  split at hsc
  · rw [Except.ok.injEq] at hsc
    subst hsc
    refine ⟨by simp, ?_, ?_, ?_⟩
    · show ((topChunksOf _ _ _ topK).map (fun it => it.1)).length ≤ topK
      rw [List.length_map]
      unfold topChunksOf
      rw [List.length_take]
      exact min_le_left _ _
    · exact nonIncreasing_of_pairwise (topChunksOf_pairwise _ _ _ _)
    · show ((topChunksOf _ _ _ topK).map (fun it => it.2)).all (fun s => decide (0 < s)) = true
      apply List.all_eq_true.mpr
      intro s hs
      obtain ⟨x, hx, rfl⟩ := List.mem_map.mp hs
      exact decide_eq_true (topChunksOf_pos hx)
  · exact absurd hsc (by simp)

/-- Witness for C1 at a concrete store and query. -/
theorem searchSimilar_ranking_invariant_witness :
    demoResult.chunks.length = demoResult.scores.length
    ∧ demoResult.chunks.length ≤ 5
    ∧ nonIncreasingScores demoResult.scores = true
    ∧ demoResult.scores.all (fun s => decide (0 < s)) = true :=
  searchSimilar_ranking_invariant (Except.ok [mkChunk "academy"]) RAGStoreState.initial demoState
    "school" 5 demoResult rfl

/-- C2 exhibit: a nonsense query whose surviving token `(((` contains regex
metacharacters makes the per-query scoring throw instead of degrading to an
empty result — the interpolated pattern `\b(((\b` is an invalid ECMAScript
regular expression, and the `SyntaxError` is rethrown wrapped by the
`catch` block of `searchSimilar`. -/
theorem searchChunks_regex_injection_throws :
    searchChunks [mkChunk "hello world"] "(((" 5
      = Except.error "Failed to search for similar chunks: SyntaxError: Invalid regular expression"
    ∧ queryWordsOf (jsToLower "(((") = ["((("] :=
  ⟨rfl, rfl⟩

/-- C3 counterexample: the stopword-length query `"ab"` (a single token of
length 2) against the chunk `"academy"` returns one chunk with score 1 — the
domain-term bonus fires with no query-word signal — and
`getRetrievalContext` returns assembled context, not the fallback. -/
theorem stopword_query_counterexample :
    (jsSplitWs (jsToLower "ab")).all (fun w => decide (w.length ≤ 2)) = true
    ∧ searchChunks [mkChunk "academy"] "ab" 3
        = Except.ok { chunks := [mkChunk "academy"], scores := [1], query := "ab" }
    ∧ getRetrievalContext [mkChunk "academy"] "ab" 3
        = Except.ok "Based on the Abu Rayyan Academy documents:\n\n[Document 1]:\nacademy\n\n"
    ∧ "Based on the Abu Rayyan Academy documents:\n\n[Document 1]:\nacademy\n\n" ≠ noInfoFallback :=
  ⟨by decide, rfl, rfl, by decide⟩

/-- C3 amended: a query made of stopword-length tokens yields the empty
result and the non-empty fallback message provided additionally no chunk
contains the query as a substring and no chunk contains a domain term. -/
theorem stopword_query_fallback (documents : List DocumentChunk) (query : String) (topK : Nat)
    (hstop : (jsSplitWs (jsToLower query)).all (fun w => decide (w.length ≤ 2)) = true)
    (hnophrase : documents.all
      (fun c => !jsIncludes (jsToLower c.content) (jsToLower query)) = true)
    (hnoterm : documents.all (fun c => decide (academyScore (jsToLower c.content) = 0)) = true) :
    searchChunks documents query topK = Except.ok { chunks := [], scores := [], query := query }
    ∧ getRetrievalContext documents query topK = Except.ok noInfoFallback
    ∧ noInfoFallback ≠ "" := by
  have hqw : queryWordsOf (jsToLower query) = [] := by
    unfold queryWordsOf
    apply List.filter_eq_nil_iff.mpr
    intro w hw
    have hle := List.all_eq_true.mp hstop w hw
    simp at hle ⊢
    omega
  have hfilter : (scoredChunksOf documents (jsToLower query) []).filter
      (fun it => decide (0 < it.2)) = [] := by
    apply List.filter_eq_nil_iff.mpr
    intro it hit
    unfold scoredChunksOf at hit
    obtain ⟨c, hc, rfl⟩ := List.mem_map.mp hit
    have h1 := List.all_eq_true.mp hnophrase c hc
    have h2 := List.all_eq_true.mp hnoterm c hc
    simp at h1 h2
    simp [scoreChunkPure, h1, h2]
  have htop : topChunksOf documents (jsToLower query) [] topK = [] := by
    unfold topChunksOf
    rw [hfilter]
    simp [sortByScoreDesc, List.insertionSort]
  have hsearch : searchChunks documents query topK
      = Except.ok { chunks := [], scores := [], query := query } := by
    unfold searchChunks
    rw [hqw]
    simp [htop]
  refine ⟨hsearch, ?_, by decide⟩
  unfold getRetrievalContext
  rw [hsearch]
  simp

/-- Witness for the amended C3 at a concrete stopword query and chunk set. -/
theorem stopword_query_fallback_witness :
    searchChunks [mkChunk "xyz"] "ab" 3 = Except.ok { chunks := [], scores := [], query := "ab" }
    ∧ getRetrievalContext [mkChunk "xyz"] "ab" 3 = Except.ok noInfoFallback
    ∧ noInfoFallback ≠ "" :=
  stopword_query_fallback [mkChunk "xyz"] "ab" 3 (by decide) (by decide) (by decide)

/-- C4 counterexample: the chunk content `"academy academy"` contains the
domain term `"academy"` twice, yet the domain-vocabulary contribution (and
the whole score for a query with no other signal) is 1, not 2 times the
per-occurrence bonus: the source adds 1 per term present (`includes`), not
per occurrence. -/
theorem academy_bonus_counterexample :
    chunkScore "zzzz" "academy academy" = Except.ok 1
    ∧ academyScore "academy academy" = 1
    ∧ countOccurrences "academy".data "academy academy".data = 2
    ∧ (1 : Nat) ≠ 2 * 1 :=
  ⟨rfl, rfl, by decide, by decide⟩

/-- C4 amended: the domain-vocabulary contribution is a flat bonus of 1 per
domain term occurring in the content at least once, independent of the
occurrence count. -/
theorem academyScore_flat_per_present_term (content : String) :
    academyScore content
      = (academyTerms.filter (fun t => decide (0 < countOccurrences t.data content.data))).length := by
  unfold academyScore
  congr 1
  apply List.filter_congr
  intro t ht
  have hne : t.data ≠ [] := by
    simp only [academyTerms, List.mem_cons, List.not_mem_nil, or_false] at ht
    rcases ht with rfl | rfl | rfl | rfl | rfl | rfl | rfl <;> decide
  exact hasInfix_eq_pos_count t.data hne content.data

/-- C5: a chunk whose lowercased content contains the lowercased query
verbatim scores strictly higher than an otherwise-identical chunk — same
whole-word match count for every query token and same domain-term presence —
that does not contain the query contiguously: the difference is exactly the
phrase bonus of 10. -/
theorem phrase_bonus_strict (query c1 c2 : String) (s1 s2 : Nat)
    (_hq : query ≠ "")
    (h1 : chunkScore query c1 = Except.ok s1)
    (h2 : chunkScore query c2 = Except.ok s2)
    (hin : jsIncludes (jsToLower c1) (jsToLower query) = true)
    (hnin : jsIncludes (jsToLower c2) (jsToLower query) = false)
    (hw : ∀ w ∈ queryWordsOf (jsToLower query),
      countWordMatches w (jsToLower c1) = countWordMatches w (jsToLower c2))
    (ht : ∀ t ∈ academyTerms,
      jsIncludes (jsToLower c1) t = jsIncludes (jsToLower c2) t) :
    s2 < s1 := by
  unfold chunkScore at h1 h2
  split at h1
  · rename_i hall
    rw [if_pos hall] at h2
    rw [Except.ok.injEq] at h1 h2
    subst h1
    subst h2
    have hsum : (queryWordsOf (jsToLower query)).map
          (fun w => 2 * countWordMatches w (jsToLower c1))
        = (queryWordsOf (jsToLower query)).map
          (fun w => 2 * countWordMatches w (jsToLower c2)) :=
      List.map_congr_left (fun w hwme => by rw [hw w hwme])
    have hac : academyScore (jsToLower c1) = academyScore (jsToLower c2) := by
      unfold academyScore
      rw [List.filter_congr ht]
    unfold scoreChunkPure
    rw [hin, hnin, hsum, hac]
    simp
  · exact absurd h1 (by simp)

/-- Witness for C5 at a concrete query and chunk pair. -/
theorem phrase_bonus_strict_witness :
    chunkScore "tuition fees" "tuition fees info" = Except.ok 14
    ∧ chunkScore "tuition fees" "tuition paid. fees due." = Except.ok 4
    ∧ (4 : Nat) < 14 :=
  ⟨rfl, rfl,
   phrase_bonus_strict "tuition fees" "tuition fees info" "tuition paid. fees due." 14 4
     (by decide) rfl rfl (by decide) (by decide) (by decide) (by decide)⟩

/-- C6: `searchSimilar` on a cold store first runs `initialize`, and
`initialize` on an initialized store is a no-op: it returns the state
unchanged (same documents, same count) without consulting the document
processor again. -/
theorem initStore_lazy_idempotent (proc proc2 : Except String (List DocumentChunk))
    (st st2 : RAGStoreState) (q : String) (k : Nat) (r : SimpleRetrievalResult) :
    (st.isInitialized = false →
      searchSimilar proc st q k = Except.ok (st2, r) → initStore proc st = Except.ok st2)
    ∧ (∀ st3, initStore proc st = Except.ok st3 →
        initStore proc2 st3 = Except.ok st3 ∧ st3.isInitialized = true) := by
  constructor
  · intro hcold h
    unfold searchSimilar at h
    split at h
    · exact absurd h (by simp)
    · rename_i st1 heq
      split at h
      · exact absurd h (by simp)
      · rename_i r1 heq2
        have hpair : st1 = st2 ∧ r1 = r := by simpa using h
        simp only [hcold, Bool.false_eq_true, if_false] at heq
        rw [← hpair.1]
        exact heq
  · intro st3 h3
    unfold initStore at h3
    by_cases hflag : st.isInitialized = true
    · rw [if_pos hflag] at h3
      rw [Except.ok.injEq] at h3
      subst h3
      refine ⟨?_, hflag⟩
      unfold initStore
      rw [if_pos hflag]
    · rw [if_neg hflag] at h3
      split at h3
      · rename_i chunks heqp
        rw [Except.ok.injEq] at h3
        subst h3
        refine ⟨?_, rfl⟩
        unfold initStore
        simp
      · exact absurd h3 (by simp)

/-- Witness for C6: a cold start through `searchSimilar` initializes the
store, and a second `initialize` with a failing processor still returns the
cached state unchanged. -/
theorem initStore_lazy_idempotent_witness :
    initStore (Except.ok [mkChunk "academy"]) RAGStoreState.initial = Except.ok demoState
    ∧ (initStore (Except.error "boom") demoState = Except.ok demoState
       ∧ demoState.isInitialized = true) :=
  ⟨(initStore_lazy_idempotent (Except.ok [mkChunk "academy"]) (Except.error "boom")
      RAGStoreState.initial demoState "school" 5 demoResult).1 rfl rfl,
   (initStore_lazy_idempotent (Except.ok [mkChunk "academy"]) (Except.error "boom")
      RAGStoreState.initial demoState "school" 5 demoResult).2 demoState rfl⟩

/-- C7: on a cold store, initialization from the document pipeline fails —
surfacing an error and producing no chunk cache — exactly when the source
file is missing, the extraction fails, or the extraction succeeds with
empty or whitespace-only text. -/
theorem initStore_fails_iff (fileExists : Bool) (extractResult : Except String String)
    (splitText : String → List String) (ids : Nat → String) (filePath : String)
    (st : RAGStoreState) (hcold : st.isInitialized = false) :
    (initStore (processDocxFile fileExists extractResult splitText ids filePath) st).isOk = false
      ↔ (fileExists = false ∨ extractResult.isOk = false ∨ extractedEmpty extractResult = true) := by
  unfold initStore processDocxFile
  simp only [hcold, Bool.false_eq_true, if_false]
  cases fileExists with
  | false => simp [Except.isOk, Except.toBool, extractedEmpty]
  | true =>
    cases extractResult with
    | error e => simp [Except.isOk, Except.toBool, extractedEmpty]
    | ok t =>
      by_cases hempty : t.trim.length = 0
      · simp [hempty, Except.isOk, Except.toBool, extractedEmpty]
      · simp [hempty, Except.isOk, Except.toBool, extractedEmpty]

/-- Witness for C7: a missing file on a cold store fails initialization. -/
theorem initStore_fails_iff_witness :
    (initStore
        (processDocxFile false (Except.ok "hello") (fun t => [t]) (fun _ => "id") "doc.docx")
        RAGStoreState.initial).isOk = false
      ↔ (false = false ∨ (Except.ok "hello" : Except String String).isOk = false
          ∨ extractedEmpty (Except.ok "hello") = true) :=
  initStore_fails_iff false (Except.ok "hello") (fun t => [t]) (fun _ => "id") "doc.docx"
    RAGStoreState.initial rfl

/-- C8: the chunks produced from one document carry `chunkIndex` values
forming the contiguous 0-based sequence `0, 1, …` in order, and every
chunk's `totalChunks` equals the length of that sequence. -/
theorem splitTextIntoChunks_contiguous (pieces : List String) (src : String) (ids : Nat → String) :
    (splitTextIntoChunks pieces src ids).map (fun c => c.metadata.chunkIndex)
        = List.range (splitTextIntoChunks pieces src ids).length
    ∧ (splitTextIntoChunks pieces src ids).all
        (fun c => decide (c.metadata.totalChunks = (splitTextIntoChunks pieces src ids).length))
        = true := by
  have hlen : (splitTextIntoChunks pieces src ids).length = pieces.length := by
    unfold splitTextIntoChunks
    rw [List.length_map, List.enum_length]
  constructor
  · rw [hlen]
    unfold splitTextIntoChunks
    rw [List.map_map]
    have hcomp : ((fun c : DocumentChunk => c.metadata.chunkIndex) ∘
        (fun p : Nat × String =>
          ({ id := ids p.1
             content := p.2.trim
             metadata :=
               { source := src
                 chunkIndex := p.1
                 totalChunks := pieces.length
                 wordCount := (jsSplitWs p.2).length } } : DocumentChunk))) = Prod.fst := rfl
    rw [hcomp, List.enum_map_fst]
  · simp only [hlen]
    apply List.all_eq_true.mpr
    intro c hc
    unfold splitTextIntoChunks at hc
    obtain ⟨p, hp, rfl⟩ := List.mem_map.mp hc
    exact decide_eq_true rfl

/-- C10 counterexample: the whitespace-only query `" "` is not treated like
the empty query: against the one-chunk store `"abc"` no chunk receives the
phrase bonus (the content does not contain a space), so the result is empty
instead of the claimed `min topK 1 = 1` chunks with score at least 10. -/
theorem whitespace_query_counterexample :
    searchChunks [mkChunk "abc"] " " 5 = Except.ok { chunks := [], scores := [], query := " " }
    ∧ min 5 ([mkChunk "abc"] : List DocumentChunk).length = 1
    ∧ (0 : Nat) ≠ 1 :=
  ⟨rfl, rfl, by decide⟩

/-- C10 amended (restricted to the genuinely empty query): every chunk
contains the empty string, so every cached chunk receives the phrase bonus
of 10, scoring never fails, and the search returns `min topK n` chunks each
with score at least 10. -/
theorem empty_query_full_bonus (documents : List DocumentChunk) (topK : Nat) :
    (searchChunks documents "" topK).isOk = true
    ∧ ∀ r, searchChunks documents "" topK = Except.ok r →
        r.chunks.length = min topK documents.length
        ∧ r.scores.all (fun s => decide (10 ≤ s)) = true := by
  have hqw : queryWordsOf (jsToLower "") = [] := rfl
  have hcond : (documents.isEmpty || (queryWordsOf (jsToLower "")).all wordRegexSafe) = true := by
    rw [hqw]
    simp
  have hall : ∀ it ∈ scoredChunksOf documents (jsToLower "") [], 10 ≤ it.2 := by
    intro it hit
    unfold scoredChunksOf at hit
    obtain ⟨c, hc, rfl⟩ := List.mem_map.mp hit
    show 10 ≤ scoreChunkPure (jsToLower "") [] c.content
    unfold scoreChunkPure
    have hinc : jsIncludes (jsToLower c.content) (jsToLower "") = true := hasInfix_empty _
    rw [hinc]
    simp
  have hfiltereq : (scoredChunksOf documents (jsToLower "") []).filter
      (fun it => decide (0 < it.2)) = scoredChunksOf documents (jsToLower "") [] := by
    apply List.filter_eq_self.mpr
    intro a ha
    exact decide_eq_true (lt_of_lt_of_le (by norm_num) (hall a ha))
  constructor
  · unfold searchChunks
    rw [if_pos hcond]
    rfl
  · intro r hr
    unfold searchChunks at hr
    rw [if_pos hcond] at hr
    rw [Except.ok.injEq] at hr
    subst hr
    constructor
    · show ((topChunksOf documents (jsToLower "") (queryWordsOf (jsToLower "")) topK).map
          (fun it => it.1)).length = min topK documents.length
      rw [List.length_map]
      unfold topChunksOf
      rw [List.length_take, hqw, hfiltereq]
      have hslen : (sortByScoreDesc (scoredChunksOf documents (jsToLower "") [])).length
          = documents.length := by
        unfold sortByScoreDesc
        rw [(List.perm_insertionSort scoreGE _).length_eq]
        unfold scoredChunksOf
        rw [List.length_map]
      rw [hslen]
    · show ((topChunksOf documents (jsToLower "") (queryWordsOf (jsToLower "")) topK).map
          (fun it => it.2)).all (fun s => decide (10 ≤ s)) = true
      apply List.all_eq_true.mpr
      intro s hs
      obtain ⟨x, hx, rfl⟩ := List.mem_map.mp hs
      apply decide_eq_true
      have hxm := topChunksOf_mem_scored hx
      rw [hqw] at hxm
      exact hall x hxm

/-- Witness for the amended C10 at a one-chunk store. -/
theorem empty_query_full_bonus_witness :
    (searchChunks [mkChunk "abc"] "" 5).isOk = true
    ∧ (emptyQueryResult.chunks.length = min 5 ([mkChunk "abc"] : List DocumentChunk).length
       ∧ emptyQueryResult.scores.all (fun s => decide (10 ≤ s)) = true) :=
  ⟨(empty_query_full_bonus [mkChunk "abc"] 5).1,
   (empty_query_full_bonus [mkChunk "abc"] 5).2 emptyQueryResult rfl⟩
